import Mathlib

/-!
# Verification of the clinical-ai-monitor evaluation & monitoring engine

Shallow embedding of the evaluation/configuration/performance/safety logic of
the backend (`src/backend/api/models/{config,data,evaluate,performance,safety}.py`)
together with proofs of the specified properties.

Conventions of the embedding:
* Python floats are modelled as rationals (`Rat`); only orderings and
  equalities of concretely representable values matter for the properties
  proved here.
* Python `datetime` / `timedelta` values are modelled as instants / durations
  in whole seconds (`Int`); `timedelta(hours=v)` is `3600 * v` seconds, etc.
* Python dicts whose keys are strings are modelled as association lists in
  insertion order; lookup returns the first binding.
* Pydantic v1 validation is modelled explicitly: fields are validated in
  declaration order and each `@validator` receives `values`, the collection of
  the *previously* validated fields only.  This ordering is load-bearing for
  the behaviour of `EvaluationInput.validate_list_lengths` and
  `MetricConfig.validate_name` and is therefore embedded faithfully.
* Fallible Python code (raising `ValueError` / pydantic `ValidationError` /
  `HTTPException`) is modelled with `Except`.
-/

/-- First-match lookup in an association list with string keys, modelling
`dict.get` / `dict[...]` on Python dicts in insertion order. -/
def lookupStr {α : Type} (k : String) : List (String × α) → Option α
  | [] => none
  | (k', v) :: tl => if k = k' then some v else lookupStr k tl

/-- A Python scalar appearing in condition dictionaries
(`Union[str, int, float]`). -/
inductive PyVal where
  | str (s : String)
  | num (q : Rat)
deriving DecidableEq, Repr

/-! ## `api/models/constants.py` -/

/-- `VALID_METRIC_NAMES` from `api/models/constants.py`. -/
def VALID_METRIC_NAMES : List String :=
  ["binary_accuracy", "binary_auroc", "binary_average_precision",
   "binary_confusion_matrix", "binary_f1_score", "binary_fbeta_score",
   "binary_mcc", "binary_npv", "binary_ppv", "binary_precision",
   "binary_recall", "binary_tpr", "binary_precision_recall_curve",
   "binary_roc", "binary_specificity", "binary_tnr"]

/-! ## `api/models/config.py` -/

/-- `MetricConfig`: name and type of one configured metric. -/
structure MetricConfig where
  name : String
  type : String
deriving DecidableEq, Repr

/-- `MetricConfig.validate_type`: the metric type must be binary, multilabel
or multiclass. -/
def metricConfigValidateType (v : String) : Except String String :=
  if v = "binary" ∨ v = "multilabel" ∨ v = "multiclass" then .ok v
  else .error "Type must be binary, multilabel, or multiclass"

/-- `MetricConfig.validate_name`: when `"type"` is among the already-validated
`values`, require `type_name` to be in the registry.  `values` holds the
fields validated before `name`; since `name` is declared before `type` in
`MetricConfig`, the caller passes the state at that point. -/
def metricConfigValidateName (v : String) (values : List (String × String)) :
    Except String String :=
  match lookupStr "type" values with
  | some t =>
      if (t ++ "_" ++ v) ∈ VALID_METRIC_NAMES then .ok v
      else .error ("Invalid metric: " ++ t ++ "_" ++ v)
  | none => .ok v

/-- Pydantic construction of a `MetricConfig`.  Fields are validated in
declaration order — `name` (line 39) before `type` (line 40) — and each
validator sees only the previously validated fields. -/
def MetricConfig.construct (name type : String) : Except String MetricConfig := do
  let values : List (String × String) := []
  let name ← metricConfigValidateName name values
  let values := values ++ [("name", name)]
  let _ := values
  let type ← metricConfigValidateType type
  pure { name := name, type := type }

/-- `ConditionType` enumeration. -/
inductive ConditionType where
  | value | range | contains | year | month | day
deriving DecidableEq, Repr

/-- The `.value` string of a `ConditionType` member. -/
def ConditionType.str : ConditionType → String
  | .value => "value"
  | .range => "range"
  | .contains => "contains"
  | .year => "year"
  | .month => "month"
  | .day => "day"

/-- `SubgroupCondition`: type plus optional value / range bounds. -/
structure SubgroupCondition where
  type : ConditionType
  value : Option PyVal := none
  min_value : Option Rat := none
  max_value : Option Rat := none
deriving DecidableEq, Repr

/-- `SubgroupCondition.validate_condition` (root validator): a range condition
needs at least one bound, every other condition needs a value. -/
def SubgroupCondition.validateCondition (c : SubgroupCondition) :
    Except String SubgroupCondition :=
  if c.type = .range ∧ c.min_value = none ∧ c.max_value = none then
    .error "Range condition must have at least min_value or max_value"
  else if c.type ∈ [ConditionType.value, .contains, .year, .month, .day] ∧
      c.value = none then
    .error (c.type.str ++ " condition must have a value")
  else
    .ok c

/-- `SubgroupConfig`: a column together with the condition on it. -/
structure SubgroupConfig where
  column : String
  condition : SubgroupCondition
deriving DecidableEq, Repr

/-- `EndpointConfig`: configured metrics and subgroups. -/
structure EndpointConfig where
  metrics : List MetricConfig
  subgroups : List SubgroupConfig
deriving DecidableEq, Repr

/-- `EndpointConfig.validate_metrics`: at least one metric is required. -/
def endpointConfigValidateMetrics (v : List MetricConfig) :
    Except String (List MetricConfig) :=
  if v.length = 0 then .error "At least one metric is required" else .ok v

/-- Pydantic construction of an `EndpointConfig` from raw metric
(name, type) pairs: each `MetricConfig` is itself validated, then the
metrics-list validator runs. -/
def EndpointConfig.construct (rawMetrics : List (String × String))
    (subgroups : List SubgroupConfig) : Except String EndpointConfig := do
  let metrics ← rawMetrics.mapM (fun p => MetricConfig.construct p.1 p.2)
  let metrics ← endpointConfigValidateMetrics metrics
  pure { metrics := metrics, subgroups := subgroups }

/-! ## `api/models/evaluate.py`: condition conversion -/

/-- `EvaluationEndpoint._convert_condition_to_dict`: turn a
`SubgroupCondition` into the dictionary handed to the slice spec, failing on
a range condition with neither bound or a non-range condition without a
value.  (The final `else` branch of the source is unreachable because
`ConditionType` has exactly the six members handled here.) -/
def convertConditionToDict (condition : SubgroupCondition) :
    Except String (List (String × PyVal)) :=
  let base : List (String × PyVal) := [("type", .str condition.type.str)]
  match condition.type with
  | .range =>
      if condition.min_value = none ∧ condition.max_value = none then
        .error "Range condition must have a min_value or max_value"
      else
        let withMin := match condition.min_value with
          | some m => base ++ [("min_value", .num m)]
          | none => base
        let withMax := match condition.max_value with
          | some m => withMin ++ [("max_value", .num m)]
          | none => withMin
        .ok withMax
  | _ =>
      match condition.value with
      | none => .error (condition.type.str ++ " condition must have a value")
      | some v => .ok (base ++ [("value", v)])

/-! ## `api/models/data.py` -/

/-- `EvaluationInput`: predictions, targets, metadata columns and an optional
timestamp (instants in seconds). -/
structure EvaluationInput where
  preds_prob : List Rat
  target : List Rat
  metadata : List (String × List PyVal)
  timestamp : Option Int
deriving DecidableEq, Repr

/-- `EvaluationInput.validate_list_lengths`: the validator body compares
`values["preds_prob"]` with `values["target"]` only when *both* keys are
among the previously validated fields; otherwise the list is returned
unchanged. -/
def validateListLengths (v : List Rat) (values_preds values_target : Option (List Rat)) :
    Except String (List Rat) :=
  match values_preds, values_target with
  | some p, some t =>
      if p.length ≠ t.length then
        .error "The lengths of 'preds_prob' and 'target' must be the same."
      else .ok v
  | _, _ => .ok v

/-- `EvaluationInput.validate_metadata`: when `preds_prob` was already
validated, every metadata column must have the same length; the first
offending key is reported. -/
def validateMetadata (v : List (String × List PyVal)) (values_preds : Option (List Rat)) :
    Except String (List (String × List PyVal)) :=
  match values_preds with
  | none => .ok v
  | some p =>
      match v.find? (fun kv => kv.2.length ≠ p.length) with
      | some kv =>
          .error ("The length of metadata '" ++ kv.1 ++
            "' must match the length of 'preds_prob'.")
      | none => .ok v

/-- Pydantic construction of an `EvaluationInput`.  Fields are validated in
declaration order (`preds_prob`, `target`, `metadata`, `timestamp`) and each
validator receives only the previously validated fields, so:
* for `preds_prob`, `values` is empty;
* for `target`, `values` holds `preds_prob` but *not* `target` itself;
* for `metadata`, `values` holds `preds_prob` and `target`.
(`validate_timestamp` only round-trips the ISO format and never fails on a
well-formed datetime, so it is the identity here.) -/
def EvaluationInput.construct (preds_prob target : List Rat)
    (metadata : List (String × List PyVal)) (timestamp : Option Int) :
    Except String EvaluationInput := do
  let preds_prob ← validateListLengths preds_prob none none
  let target ← validateListLengths target (some preds_prob) none
  let metadata ← validateMetadata metadata (some preds_prob)
  pure ⟨preds_prob, target, metadata, timestamp⟩

/-- Per-slice, per-metric scalar results: the value of
`result["model_for_preds_prob"]` (slice name → metric id → value). -/
def EvalValues := List (String × List (String × Rat))
deriving DecidableEq, Repr

/-- `EvaluationResult`: one stored evaluation. -/
structure EvaluationResult where
  metrics : List String
  subgroups : List String
  evaluation_result : EvalValues
  timestamp : Int
  sample_size : Nat
deriving DecidableEq, Repr

/-- `EndpointLog`: one log entry of an endpoint. -/
structure EndpointLog where
  timestamp : Int
  action : String
  details : Option (List (String × String)) := none
  endpoint_name : String
deriving DecidableEq, Repr

/-- `EndpointData`: config, per-model evaluation history, logs and models of
one endpoint. -/
structure EndpointData where
  config : EndpointConfig
  evaluation_history : List (String × List EvaluationResult) := []
  logs : List EndpointLog := []
  models : List String := []
deriving DecidableEq, Repr

/-! ## `api/models/evaluate.py`: evaluation -/

/-- The metric identifier `f"{metric.type}_{metric.name}"`. -/
def metricId (m : MetricConfig) : String := m.type ++ "_" ++ m.name

/-- Keys of a Python dict built from a sequence of keyed insertions:
first-occurrence order, duplicates collapsed.  This models the
`MetricDict({id: create_metric(id) for metric in config.metrics})`
comprehension in `EvaluationEndpoint.__init__`. -/
def pyDictKeys (l : List String) : List String :=
  l.foldl (fun acc k => if k ∈ acc then acc else acc ++ [k]) []

/-- Modelled from the spec: the SliceCompiler (the external cyclops
`SliceSpec` built by `EvaluationEndpoint._create_slice_spec`) produces one
named slice per configured `SubgroupSpec` (named by its column, §4.2) plus
the implicit `"overall"` slice. -/
def sliceNames (config : EndpointConfig) : List String :=
  config.subgroups.map (·.column) ++ ["overall"]

/-- Modelled from the spec: the external Metric Library (cyclops
`evaluator.evaluate`) computes one scalar per metric per slice; `lib` is the
library's `compute(metric_id, slice)` and `keys` are the keys of the
endpoint's `MetricDict`.  The result is `result["model_for_preds_prob"]`:
slice name → metric id → value. -/
def evaluatorEvaluate (lib : String → String → Rat) (keys : List String)
    (slices : List String) : EvalValues :=
  slices.map (fun s => (s, keys.map (fun m => (m, lib m s))))

/-- Lines 154–156 of `EvaluationEndpoint.evaluate`: append the result to the
model's history, creating the entry when the model id is absent
(`self.data.evaluation_history[model_id] = []` inserts a fresh key at the
end of the dict). -/
def historyAppend (h : List (String × List EvaluationResult)) (model_id : String)
    (er : EvaluationResult) : List (String × List EvaluationResult) :=
  if (lookupStr model_id h).isSome then
    h.map (fun p => if p.1 = model_id then (p.1, p.2 ++ [er]) else p)
  else
    h ++ [(model_id, [er])]

/-- `EvaluationEndpoint.evaluate`: run the external evaluator over the
compiled slices and the endpoint's `MetricDict`, build an
`EvaluationResult` stamped with the input timestamp (or the evaluation time
`now`) and `sample_size = len(preds_prob)`, and append it to the per-model
evaluation history (creating the entry when absent), logging the action.
Returns the result together with the updated endpoint data. -/
def evaluateEndpoint (lib : String → String → Rat) (config : EndpointConfig)
    (data : EndpointData) (name : String) (model_id : String)
    (input : EvaluationInput) (now : Int) : EvaluationResult × EndpointData :=
  let keys := pyDictKeys (config.metrics.map metricId)
  let result := evaluatorEvaluate lib keys (sliceNames config)
  let slices := result.map (·.1)
  let sample_size := input.preds_prob.length
  let evaluation_timestamp := input.timestamp.getD now
  let evaluation_result : EvaluationResult :=
    { metrics := config.metrics.map metricId
      subgroups := slices
      evaluation_result := result
      timestamp := evaluation_timestamp
      sample_size := sample_size }
  let history := historyAppend data.evaluation_history model_id evaluation_result
  let data' : EndpointData :=
    { data with
      evaluation_history := history
      logs := data.logs ++
        [{ timestamp := now, action := "evaluated", endpoint_name := name }] }
  (evaluation_result, data')

/-! ## `api/models/performance.py` -/

/-- `METRIC_TOOLTIPS` as defined locally in `api/models/performance.py`. -/
def PERF_METRIC_TOOLTIPS : List (String × String) :=
  [("binary_accuracy", "Proportion of correct predictions (both true positives and true negatives) among the total number of cases examined."),
   ("binary_precision", "Proportion of true positive predictions among all positive predictions."),
   ("binary_recall", "Proportion of true positive predictions among all actual positive cases."),
   ("binary_f1_score", "Harmonic mean of precision and recall, providing a single score that balances both metrics."),
   ("binary_auroc", "Area Under the Receiver Operating Characteristic Curve, measuring the ability to distinguish between classes."),
   ("multiclass_accuracy", "Proportion of correct predictions among the total number of cases examined for multiple classes."),
   ("multiclass_precision", "Average precision across all classes, weighted by the number of true instances for each class."),
   ("multiclass_recall", "Average recall across all classes, weighted by the number of true instances for each class."),
   ("multiclass_f1_score", "Harmonic mean of precision and recall for multiple classes, providing a balanced measure of the model's performance.")]

/-- `METRIC_DISPLAY_NAMES` as defined locally in `api/models/performance.py`. -/
def PERF_METRIC_DISPLAY_NAMES : List (String × String) :=
  [("binary_accuracy", "Accuracy"), ("binary_precision", "Precision"),
   ("binary_recall", "Recall"), ("binary_f1_score", "F1 Score"),
   ("binary_auroc", "AUROC"), ("multiclass_accuracy", "Accuracy"),
   ("multiclass_precision", "Precision"), ("multiclass_recall", "Recall"),
   ("multiclass_f1_score", "F1 Score")]

/-- Python `str.lower()`: each character lowercased.  (`String.toLower`
itself is not kernel-reducible; this structural version agrees with it.) -/
def pyLower (s : String) : String := String.mk (s.toList.map Char.toLower)

/-- Python `str.title()` on one word: first character uppercased, the rest
lowercased.  (Coincides with Python for the words occurring in metric names,
which all begin with a letter.) -/
def pyTitleWord (w : String) : String :=
  match w.toList with
  | [] => ""
  | c :: rest => String.mk (c.toUpper :: rest.map Char.toLower)

/-- Python `str.title()` over space-separated words. -/
def pyTitle (s : String) : String :=
  String.intercalate " " ((s.splitOn " ").map pyTitleWord)

/-- `format_metric_name`: display name from the registry, else a title-cased
fallback with underscores replaced by spaces. -/
def formatMetricName (metric : String) : String :=
  (lookupStr metric PERF_METRIC_DISPLAY_NAMES).getD
    (pyTitle (metric.replace "_" " "))

/-- `metric.split("_")[0]`. -/
def metricTypePrefix (metric : String) : String :=
  match metric.splitOn "_" with
  | [] => ""
  | h :: _ => h

/-- `Metric` as defined locally in `api/models/performance.py`
(timestamps modelled as instants in seconds). -/
structure PMetric where
  name : String
  type : String
  slice : String
  tooltip : String
  value : Rat
  threshold : Rat
  passed : Bool
  history : List Rat
  timestamps : List Int
  sample_sizes : List Nat
deriving DecidableEq, Repr

/-- `MetricCards` as defined locally in `api/models/performance.py`. -/
structure PMetricCards where
  metrics : List String
  tooltips : List String
  slices : List String
  collection : List PMetric
deriving DecidableEq, Repr

/-- `Overview` as defined locally in `api/models/performance.py`. -/
structure POverview where
  last_n_evals : Nat
  mean_std_min_evals : Nat
  metric_cards : PMetricCards
deriving DecidableEq, Repr

/-- `PerformanceData` as defined locally in `api/models/performance.py`. -/
structure PerformanceData where
  overview : POverview
deriving DecidableEq, Repr

/-- An `HTTPException`: status code and detail message. -/
structure HttpError where
  status : Nat
  detail : String
deriving DecidableEq, Repr

/-- The extraction
`eval_result["evaluation_result"]["model_for_preds_prob"].get(slice_, {}).get(metric, 0.0)`
performed per history entry by `create_metric`. -/
def sliceMetricValue (metric slice_ : String) (er : EvaluationResult) : Rat :=
  (lookupStr metric ((lookupStr slice_ er.evaluation_result).getD [])).getD 0

/-- `create_metric` from `api/models/performance.py`: walk the evaluation
history collecting the metric value for the slice (defaulting to `0.0` when
the slice or the metric is absent), the timestamps and the sample sizes;
the latest value is the last collected one (or `0.0` on empty history) and
`passed` compares it with the threshold. -/
def createMetric (metric slice_ : String)
    (evaluation_history : List EvaluationResult) (threshold : Rat) : PMetric :=
  let history := evaluation_history.map (sliceMetricValue metric slice_)
  let timestamps := evaluation_history.map (·.timestamp)
  let sample_sizes := evaluation_history.map (·.sample_size)
  let latest_value := history.getLast?.getD 0
  { name := formatMetricName metric
    type := metricTypePrefix metric
    slice := slice_
    tooltip := (lookupStr metric PERF_METRIC_TOOLTIPS).getD
      ("No tooltip available for " ++ metric)
    value := latest_value
    threshold := threshold
    passed := decide (latest_value ≥ threshold)
    history := history
    timestamps := timestamps
    sample_sizes := sample_sizes }

/-- `get_performance_metrics` from `api/models/performance.py`, from the point
where the endpoint's stored data has been read (file lookup and JSON parsing
belong to the excluded persistence layer): with an empty evaluation history
it raises a 404 `HTTPException`; otherwise it takes metrics and subgroups
from the latest (last) evaluation, appends `"overall"` to the slices, and
builds one metric card per (metric, slice) pair with threshold `0.6`. -/
def getPerformanceMetrics (endpoint_name : String)
    (evaluation_history : List EvaluationResult) :
    Except HttpError PerformanceData :=
  let threshold : Rat := mkRat 6 10
  let last_n_evals := 10
  let mean_std_min_evals := 3
  match evaluation_history.getLast? with
  | none =>
      .error ⟨404, "No evaluation history for endpoint '" ++ endpoint_name ++ "'"⟩
  | some latest_evaluation =>
      let metrics := latest_evaluation.metrics
      let slices := latest_evaluation.subgroups ++ ["overall"]
      let metric_cards : PMetricCards :=
        { metrics := metrics.map formatMetricName
          tooltips := metrics.map (fun metric =>
            (lookupStr metric PERF_METRIC_TOOLTIPS).getD
              ("No tooltip available for " ++ metric))
          slices := slices
          collection := metrics.flatMap (fun metric =>
            slices.map (fun slice_ =>
              createMetric metric slice_ evaluation_history threshold)) }
      .ok { overview :=
              { last_n_evals := last_n_evals
                mean_std_min_evals := mean_std_min_evals
                metric_cards := metric_cards } }

/-! ## `api/models/safety.py` -/

/-- `ComparisonOperator` from `api/models/data.py`. -/
inductive ComparisonOperator where
  | gt | lt | eq | ge | le
deriving DecidableEq, Repr

/-- `EvaluationCriterion` from `api/models/data.py`. -/
structure EvaluationCriterion where
  id : String
  metric_name : String
  display_name : String
  operator : ComparisonOperator
  threshold : Rat
deriving DecidableEq, Repr

/-- `EvaluationFrequency` from `api/models/data.py` (its `unit` is a plain
string there). -/
structure EvaluationFrequency where
  value : Int
  unit : String
deriving DecidableEq, Repr

/-- `check_criterion` from `api/models/safety.py`: compare the metric value
with the criterion's threshold under its operator. -/
def check_criterion (criterion : EvaluationCriterion) (metric_value : Rat) : Bool :=
  match criterion.operator with
  | .gt => decide (metric_value > criterion.threshold)
  | .lt => decide (metric_value < criterion.threshold)
  | .eq => decide (metric_value = criterion.threshold)
  | .ge => decide (metric_value ≥ criterion.threshold)
  | .le => decide (metric_value ≤ criterion.threshold)

/-- `Metric` from `api/models/data.py` (the safety result's card shape,
with `display_name` and `status`). -/
structure SafetyMetric where
  name : String
  display_name : String
  type : String
  slice : String
  tooltip : String
  value : Rat
  threshold : Rat
  passed : Bool
  history : List Rat
  timestamps : List Int
  sample_sizes : List Nat
  status : String
deriving DecidableEq, Repr

/-- `ModelSafety` from `api/models/data.py`. -/
structure ModelSafety where
  metrics : List SafetyMetric
  last_evaluated : Int
  is_recently_evaluated : Bool
  overall_status : String
deriving DecidableEq, Repr

/-- The criterion loop of `get_model_safety`: for each criterion, find the
first card whose name matches case-insensitively (`next(...)`), silently
skip the criterion when none does (`continue`), and otherwise record a card
whose `status` is `"met"` exactly when `check_criterion` holds of the card's
value. -/
def safetyMetrics (criteria : List EvaluationCriterion)
    (collection : List PMetric) : List SafetyMetric :=
  criteria.filterMap (fun criterion =>
    match collection.find?
        (fun m => pyLower m.name = pyLower criterion.metric_name) with
    | none => none
    | some metric_data =>
        let status := if check_criterion criterion metric_data.value
          then "met" else "not met"
        some { name := criterion.metric_name
               display_name := criterion.display_name
               value := metric_data.value
               threshold := criterion.threshold
               status := status
               history := metric_data.history
               timestamps := metric_data.timestamps
               sample_sizes := metric_data.sample_sizes
               type := metric_data.type
               slice := metric_data.slice
               tooltip := metric_data.tooltip
               passed := decide (status = "met") })

/-- The `EvaluationFrequency` → `timedelta` conversion inside
`get_model_safety`, in seconds: literal for hours/days/weeks, `30 * value`
days for months, and an error for any other unit. -/
def frequencyThreshold (f : EvaluationFrequency) : Except String Int :=
  if f.unit = "hours" then .ok (3600 * f.value)
  else if f.unit = "days" then .ok (86400 * f.value)
  else if f.unit = "weeks" then .ok (604800 * f.value)
  else if f.unit = "months" then .ok (86400 * (f.value * 30))
  else .error ("Unknown frequency unit: " ++ f.unit)

/-- `get_model_safety` from `api/models/safety.py`, from the point where the
model's data and the aggregated performance collection are in hand (model
lookup and the performance call belong to collaborators): fail when the
collection is empty, read `last_evaluated` from the last timestamp of the
first card (an empty timestamp list is a Python `IndexError`), evaluate the
criteria, apply the staleness rule with the model's evaluation frequency
(default `30 days`), and combine into the overall status. -/
def get_model_safety (criteria : List EvaluationCriterion)
    (frequency : Option EvaluationFrequency) (collection : List PMetric)
    (now : Int) : Except String ModelSafety :=
  match collection with
  | [] => .error "No metrics found in performance data"
  | c0 :: _ =>
    match c0.timestamps.getLast? with
    | none => .error "list index out of range"
    | some last_evaluated =>
      let metrics := safetyMetrics criteria collection
      let all_criteria_met := metrics.all (fun m => m.status = "met")
      let evaluation_frequency := frequency.getD ⟨30, "days"⟩
      match frequencyThreshold evaluation_frequency with
      | .error e => .error e
      | .ok threshold =>
        let is_recently_evaluated := decide (now - last_evaluated ≤ threshold)
        let overall_status :=
          if all_criteria_met && is_recently_evaluated then "No warnings"
          else "Warning"
        .ok { metrics := metrics
              last_evaluated := last_evaluated
              is_recently_evaluated := is_recently_evaluated
              overall_status := overall_status }

/-! ## Fixtures and spec-side characterizations -/

/-- The invalid-condition characterization of the spec: a `Range` condition
with neither bound, or a non-range condition without a value. -/
def invalidCondition (c : SubgroupCondition) : Prop :=
  (c.type = .range ∧ c.min_value = none ∧ c.max_value = none) ∨
  (c.type ≠ .range ∧ c.value = none)

/-- Fixture: a metric library returning `7/10` everywhere. -/
def exLib : String → String → Rat := fun _ _ => mkRat 7 10

/-- Fixture: a config with one metric and one age-range subgroup. -/
def exConfig : EndpointConfig :=
  { metrics := [{ name := "accuracy", type := "binary" }]
    subgroups := [{ column := "age"
                    condition := { type := .range, value := none
                                   min_value := some 0, max_value := some 50 } }] }

/-- Fixture: endpoint data with empty history for `exConfig`. -/
def exData : EndpointData := { config := exConfig }

/-- Fixture: a two-row evaluation input without its own timestamp. -/
def exInput : EvaluationInput :=
  { preds_prob := [mkRat 1 2, mkRat 1 4], target := [1, 0]
    metadata := [("age", [.num 30, .num 60])], timestamp := none }

/-- Fixture: the same metric configured twice. -/
def dupConfig : EndpointConfig :=
  { metrics := [{ name := "accuracy", type := "binary" },
                { name := "accuracy", type := "binary" }]
    subgroups := [] }

/-- Fixture: a stored evaluation result with one slice and one metric. -/
def exER : EvaluationResult :=
  { metrics := ["binary_accuracy"], subgroups := ["overall"]
    evaluation_result := [("overall", [("binary_accuracy", mkRat 4 5)])]
    timestamp := 100, sample_size := 2 }

/-- Fixture: the spec's example criterion `>= 0.8` on `binary_accuracy`. -/
def exCriterion08 : EvaluationCriterion :=
  { id := "c", metric_name := "binary_accuracy", display_name := "Accuracy"
    operator := .ge, threshold := mkRat 8 10 }

/-- Fixture: a `>= 0.5` criterion on the metric named `accuracy`. -/
def exCriterion : EvaluationCriterion :=
  { id := "c1", metric_name := "accuracy", display_name := "Accuracy"
    operator := .ge, threshold := mkRat 1 2 }

/-- Fixture: an aggregated card named `Accuracy` with latest value `0.8`,
last evaluated at instant `0`. -/
def exCard : PMetric :=
  { name := "Accuracy", type := "binary", slice := "overall", tooltip := "t"
    value := mkRat 4 5, threshold := mkRat 6 10, passed := true, history := [mkRat 4 5]
    timestamps := [0], sample_sizes := [10] }

/-- Fixture: the safety verdict of `exCriterion`/`exCard` 40 days after the
last evaluation. -/
def exSafety : ModelSafety :=
  { metrics := safetyMetrics [exCriterion] [exCard]
    last_evaluated := 0
    is_recently_evaluated := false
    overall_status := "Warning" }

/-- Fixture: a criterion whose metric name matches no aggregated card. -/
def exCriterionNoMatch : EvaluationCriterion :=
  { id := "c2", metric_name := "binary_f1_score", display_name := "F1"
    operator := .ge, threshold := mkRat 1 2 }

/-! ## Helper lemmas -/

theorem lookupStr_append {α : Type} (k : String) (h l : List (String × α)) :
    lookupStr k (h ++ l) =
      match lookupStr k h with
      | some v => some v
      | none => lookupStr k l := by
  induction h with
  | nil => simp [lookupStr]
  | cons p tl ih =>
      obtain ⟨k1, v1⟩ := p
      by_cases hk : k = k1 <;> simp [lookupStr, hk, ih]

theorem lookupStr_map_pair {α : Type} (f : String → α) (s : String)
    (slices : List String) (hs : s ∈ slices) :
    lookupStr s (slices.map (fun x => (x, f x))) = some (f s) := by
  induction slices with
  | nil => cases hs
  | cons a tl ih =>
      by_cases hk : s = a
      · subst hk
        simp [lookupStr]
      · rcases List.mem_cons.mp hs with h | h
        · exact absurd h hk
        · simp [lookupStr, hk, ih h]

theorem lookupStr_map_update {α : Type} (k : String) (g : α → α) :
    ∀ h : List (String × α),
      lookupStr k (h.map (fun p => if p.1 = k then (p.1, g p.2) else p)) =
        (lookupStr k h).map g
  | [] => rfl
  | (k1, v1) :: tl => by
      rw [List.map_cons]
      by_cases hk : k1 = k
      · subst hk
        rw [if_pos (show ((k1, v1) : String × α).1 = k1 from rfl)]
        simp [lookupStr, lookupStr_map_update k1 g tl]
      · rw [if_neg (show ¬ ((k1, v1) : String × α).1 = k from hk)]
        have hk2 : ¬ k = k1 := fun e => hk e.symm
        simp [lookupStr, hk2, lookupStr_map_update k g tl]

theorem lookupStr_map_update_ne {α : Type} (k k' : String) (g : α → α)
    (hne : k' ≠ k) :
    ∀ h : List (String × α),
      lookupStr k' (h.map (fun p => if p.1 = k then (p.1, g p.2) else p)) =
        lookupStr k' h
  | [] => rfl
  | (k1, v1) :: tl => by
      rw [List.map_cons]
      by_cases hk : k1 = k
      · subst hk
        rw [if_pos (show ((k1, v1) : String × α).1 = k1 from rfl)]
        simp [lookupStr, hne, lookupStr_map_update_ne k1 k' g hne tl]
      · rw [if_neg (show ¬ ((k1, v1) : String × α).1 = k from hk)]
        by_cases hk' : k' = k1
        · simp [lookupStr, hk']
        · simp [lookupStr, hk', lookupStr_map_update_ne k k' g hne tl]

theorem lookupStr_historyAppend_self
    (h : List (String × List EvaluationResult)) (k : String)
    (er : EvaluationResult) :
    lookupStr k (historyAppend h k er) =
      some ((lookupStr k h).getD [] ++ [er]) := by
  unfold historyAppend
  cases e : lookupStr k h with
  | some v =>
      rw [if_pos (show (some v).isSome = true from rfl),
        lookupStr_map_update k (fun l => l ++ [er]) h, e]
      rfl
  | none =>
      rw [if_neg (show ¬ (none : Option (List EvaluationResult)).isSome = true
          from by simp), lookupStr_append, e]
      simp [lookupStr]

theorem lookupStr_historyAppend_ne
    (h : List (String × List EvaluationResult)) (k k' : String)
    (er : EvaluationResult) (hne : k' ≠ k) :
    lookupStr k' (historyAppend h k er) = lookupStr k' h := by
  unfold historyAppend
  cases e : lookupStr k h with
  | some v =>
      rw [if_pos (show (some v).isSome = true from rfl),
        lookupStr_map_update_ne k k' (fun l => l ++ [er]) hne h]
  | none =>
      rw [if_neg (show ¬ (none : Option (List EvaluationResult)).isSome = true
          from by simp), lookupStr_append]
      cases e' : lookupStr k' h with
      | some v => rfl
      | none => simp [lookupStr, hne]

theorem pyDictKeys_eq_self_of_nodup (l : List String) (h : l.Nodup) :
    pyDictKeys l = l := by
  have general : ∀ (l : List String) (acc : List String), l.Nodup →
      (∀ x ∈ l, x ∉ acc) →
      l.foldl (fun acc k => if k ∈ acc then acc else acc ++ [k]) acc = acc ++ l := by
    intro l
    induction l with
    | nil => intro acc _ _; simp
    | cons a tl ih =>
        intro acc hnd hdisj
        have ha : a ∉ acc := hdisj a (by simp)
        have hnd' : tl.Nodup := hnd.of_cons
        have hdisj' : ∀ x ∈ tl, x ∉ acc ++ [a] := by
          intro x hx
          simp only [List.mem_append, List.mem_singleton]
          rintro (hc | rfl)
          · exact hdisj x (by simp [hx]) hc
          · exact (List.nodup_cons.mp hnd).1 hx
        simp only [List.foldl_cons, if_neg ha]
        rw [ih (acc ++ [a]) hnd' hdisj']
        simp
  simpa using general l [] h (by simp)

theorem getLast?_getD_zero_of_all_zero (l : List Rat)
    (h : ∀ x ∈ l, x = 0) : l.getLast?.getD 0 = 0 := by
  cases e : l.getLast? with
  | none => rfl
  | some v =>
      have hmem : v ∈ l.getLast? := e ▸ rfl
      obtain ⟨hne, hv⟩ := List.mem_getLast?_eq_getLast hmem
      have : v ∈ l := hv ▸ List.getLast_mem hne
      simp [h v this]

/-! ## Claim theorems -/

/-- C7: compiling a `SubgroupCondition` — both the pydantic root validator
`validate_condition` and `_convert_condition_to_dict` — fails with an
invalid-condition error exactly when a range condition supplies neither
bound or a non-range condition (value, contains, year, month, day) supplies
no value; every condition satisfying the invariant compiles successfully. -/
theorem c7_condition_compilation (c : SubgroupCondition) :
    (c.validateCondition = .ok c ↔ ¬ invalidCondition c) ∧
    ((convertConditionToDict c).isOk = true ↔ ¬ invalidCondition c) := by
  obtain ⟨t, v, mn, mx⟩ := c
  cases t <;> cases v <;> cases mn <;> cases mx <;>
    simp [SubgroupCondition.validateCondition, convertConditionToDict,
      invalidCondition, Except.isOk, Except.toBool]

/-- C8 (code bug): constructing an `EndpointConfig` whose only metric has the
unknown identifier `binary_bogus` succeeds, because the registry check in
`MetricConfig.validate_name` is guarded by `"type" in values` while `name`
is validated before `type`, so the guard is never true.  The empty-metrics
rejection, by contrast, does fire. -/
theorem c8_unknown_metric_accepted :
    EndpointConfig.construct [("bogus", "binary")] [] =
        .ok { metrics := [{ name := "bogus", type := "binary" }], subgroups := [] } ∧
    "binary_bogus" ∉ VALID_METRIC_NAMES ∧
    EndpointConfig.construct [] [] = .error "At least one metric is required" := by
  exact ⟨rfl, by decide, rfl⟩

/-- C3 (code bug): an `EvaluationInput` with 10 predictions and 9 targets is
accepted by pydantic validation, because `validate_list_lengths` requires
both `"preds_prob"` and `"target"` among the previously validated `values`
and the field being validated is never in `values` itself.  The metadata
length check, whose guard mentions only `"preds_prob"`, does fire. -/
theorem c3_length_mismatch_accepted :
    EvaluationInput.construct (List.replicate 10 (0 : Rat))
        (List.replicate 9 (0 : Rat)) [] none =
      .ok { preds_prob := List.replicate 10 (0 : Rat),
            target := List.replicate 9 (0 : Rat),
            metadata := [], timestamp := none } ∧
    EvaluationInput.construct (List.replicate 10 (0 : Rat))
        (List.replicate 10 (0 : Rat)) [("age", List.replicate 9 (PyVal.num 0))]
        none =
      .error "The length of metadata 'age' must match the length of 'preds_prob'." := by
  exact ⟨rfl, rfl⟩

/-- C2 counterexample: on an endpoint with empty evaluation history the
performance aggregation does not return a `has_data = false` result — it
fails with a 404 `HTTPException`. -/
theorem c2_empty_history_counterexample :
    getPerformanceMetrics "endpoint_1" [] =
      .error ⟨404, "No evaluation history for endpoint 'endpoint_1'"⟩ := rfl

/-- C2 (amended): the performance aggregation raises a 404 error (detail
`No evaluation history ...`) precisely on an empty evaluation history, and
succeeds on every non-empty history. -/
theorem c2_empty_history_errors (endpoint_name : String)
    (h : List EvaluationResult) :
    (getPerformanceMetrics endpoint_name h =
        .error ⟨404, "No evaluation history for endpoint '" ++ endpoint_name ++ "'"⟩ ↔
      h = []) ∧
    ((getPerformanceMetrics endpoint_name h).isOk = true ↔ h ≠ []) := by
  cases h with
  | nil => simp [getPerformanceMetrics, Except.isOk, Except.toBool]
  | cons a t =>
      have hlast : (a :: t).getLast? = some ((a :: t).getLast (by simp)) :=
        List.getLast?_eq_getLast_of_ne_nil (by simp)
      simp [getPerformanceMetrics, hlast, Except.isOk, Except.toBool]

theorem lookupStr_evaluatorEvaluate (lib : String → String → Rat)
    (keys slices : List String) (s : String) (hs : s ∈ slices) :
    lookupStr s (evaluatorEvaluate lib keys slices) =
      some (keys.map (fun m => (m, lib m s))) :=
  lookupStr_map_pair _ s slices hs

/-- C10: one call to `evaluate` appends exactly one result to the given
model's history (creating the entry when absent) and leaves the config, the
model list and every other model's history unchanged. -/
theorem c10_evaluate_frame (lib : String → String → Rat) (config : EndpointConfig)
    (data : EndpointData) (name model_id : String) (input : EvaluationInput)
    (now : Int) :
    lookupStr model_id
        (evaluateEndpoint lib config data name model_id input now).2.evaluation_history =
      some ((lookupStr model_id data.evaluation_history).getD [] ++
        [(evaluateEndpoint lib config data name model_id input now).1]) ∧
    (∀ other, other ≠ model_id →
      lookupStr other
          (evaluateEndpoint lib config data name model_id input now).2.evaluation_history =
        lookupStr other data.evaluation_history) ∧
    (evaluateEndpoint lib config data name model_id input now).2.config = data.config ∧
    (evaluateEndpoint lib config data name model_id input now).2.models = data.models := by
  refine ⟨?_, ?_, rfl, rfl⟩
  · exact lookupStr_historyAppend_self data.evaluation_history model_id _
  · intro other hne
    exact lookupStr_historyAppend_ne data.evaluation_history model_id other _ hne

theorem c10_evaluate_frame_witness :
    lookupStr "m1" (evaluateEndpoint exLib exConfig exData "ep" "m1" exInput 0).2.evaluation_history =
      some [(evaluateEndpoint exLib exConfig exData "ep" "m1" exInput 0).1] ∧
    lookupStr "m2" (evaluateEndpoint exLib exConfig exData "ep" "m1" exInput 0).2.evaluation_history =
      none := by
  have h := c10_evaluate_frame exLib exConfig exData "ep" "m1" exInput 0
  constructor
  · rw [h.1]
    rfl
  · rw [h.2.1 "m2" (by decide)]
    rfl

/-- C1 (amended): every slice produced by the slice compiler — the implicit
`"overall"` slice included — carries exactly one value per *distinct*
configured metric identifier (the `MetricDict` is a dict keyed by
`type_name`, so duplicate identifiers collapse); when the identifiers are
pairwise distinct this count equals `len(config.metrics)`.  The result's
`sample_size` is the length of the predictions and its `timestamp` is the
input-provided one when present, otherwise the evaluation time. -/
theorem c1_values_per_slice (lib : String → String → Rat) (config : EndpointConfig)
    (data : EndpointData) (name model_id : String) (input : EvaluationInput)
    (now : Int) :
    ("overall" ∈ sliceNames config) ∧
    (∀ s ∈ sliceNames config, ∃ vals,
      lookupStr s (evaluateEndpoint lib config data name model_id input now).1.evaluation_result =
          some vals ∧
        vals.length = (pyDictKeys (config.metrics.map metricId)).length) ∧
    ((config.metrics.map metricId).Nodup →
      ∀ s ∈ sliceNames config, ∃ vals,
        lookupStr s (evaluateEndpoint lib config data name model_id input now).1.evaluation_result =
            some vals ∧
          vals.length = config.metrics.length) ∧
    (evaluateEndpoint lib config data name model_id input now).1.sample_size =
      input.preds_prob.length ∧
    (evaluateEndpoint lib config data name model_id input now).1.timestamp =
      input.timestamp.getD now := by
  refine ⟨by simp [sliceNames], ?_, ?_, rfl, rfl⟩
  · intro s hs
    exact ⟨_, lookupStr_evaluatorEvaluate lib _ _ s hs, by simp⟩
  · intro hnd s hs
    refine ⟨_, lookupStr_evaluatorEvaluate lib _ _ s hs, ?_⟩
    rw [List.length_map, pyDictKeys_eq_self_of_nodup _ hnd, List.length_map]

theorem c1_values_per_slice_witness :
    ("overall" ∈ sliceNames exConfig) ∧
    (∃ vals,
      lookupStr "overall" (evaluateEndpoint exLib exConfig exData "ep" "m1" exInput 0).1.evaluation_result =
          some vals ∧
        vals.length = exConfig.metrics.length) ∧
    (evaluateEndpoint exLib exConfig exData "ep" "m1" exInput 0).1.sample_size = 2 ∧
    (evaluateEndpoint exLib exConfig exData "ep" "m1" exInput 0).1.timestamp = 0 := by
  have h := c1_values_per_slice exLib exConfig exData "ep" "m1" exInput 0
  exact ⟨h.1, h.2.2.1 (by decide) "overall" h.1, h.2.2.2.1, h.2.2.2.2⟩

/-- C1 counterexample: with `binary_accuracy` configured twice, the
`"overall"` slice of the result carries a single value, so
`len(result.values[slice])` is `1` while `len(config.metrics)` is `2`. -/
theorem c1_duplicate_metrics_counterexample :
    dupConfig.metrics.length = 2 ∧
    lookupStr "overall"
        (evaluateEndpoint (fun _ _ => 0) dupConfig { config := dupConfig } "ep" "m1"
          { preds_prob := [], target := [], metadata := [], timestamp := none } 0).1.evaluation_result =
      some [("binary_accuracy", 0)] := by
  exact ⟨rfl, rfl⟩

/-- C6: the per-model history entry used downstream is the most recently
appended one — after any `evaluate` call the last element of the model's
history is exactly the result just produced, whatever the input timestamps
were — and for every (metric, slice) pair `create_metric` builds the history
of values in chronological (append) order, with the latest value equal to
the one extracted from the last appended evaluation and
`passed = (latest >= threshold)`. -/
theorem c6_latest_append_semantics :
    (∀ (lib : String → String → Rat) (config : EndpointConfig)
        (data : EndpointData) (name model_id : String) (input : EvaluationInput)
        (now : Int),
      ((lookupStr model_id
          (evaluateEndpoint lib config data name model_id input now).2.evaluation_history).getD
          []).getLast? =
        some (evaluateEndpoint lib config data name model_id input now).1) ∧
    (∀ (metric slice_ : String) (h : List EvaluationResult) (threshold : Rat),
      (createMetric metric slice_ h threshold).history =
        h.map (sliceMetricValue metric slice_) ∧
      (createMetric metric slice_ h threshold).timestamps = h.map (·.timestamp) ∧
      (createMetric metric slice_ h threshold).value =
        (createMetric metric slice_ h threshold).history.getLast?.getD 0 ∧
      (∀ er, h.getLast? = some er →
        (createMetric metric slice_ h threshold).value =
          sliceMetricValue metric slice_ er) ∧
      (createMetric metric slice_ h threshold).passed =
        decide ((createMetric metric slice_ h threshold).value ≥ threshold)) := by
  constructor
  · intro lib config data name model_id input now
    rw [show (evaluateEndpoint lib config data name model_id input now).2.evaluation_history =
        historyAppend data.evaluation_history model_id
          (evaluateEndpoint lib config data name model_id input now).1 from rfl,
      lookupStr_historyAppend_self]
    simp
  · intro metric slice_ h threshold
    refine ⟨rfl, rfl, rfl, ?_, rfl⟩
    intro er hlast
    show (h.map (sliceMetricValue metric slice_)).getLast?.getD 0 = _
    rw [List.getLast?_map, hlast]
    rfl

theorem c6_latest_append_semantics_witness :
    ((lookupStr "m1"
        (evaluateEndpoint exLib exConfig exData "ep" "m1" exInput 0).2.evaluation_history).getD
        []).getLast? =
      some (evaluateEndpoint exLib exConfig exData "ep" "m1" exInput 0).1 ∧
    (createMetric "binary_accuracy" "overall" [exER] (mkRat 6 10)).value =
      sliceMetricValue "binary_accuracy" "overall" exER := by
  have h := c6_latest_append_semantics
  exact ⟨h.1 exLib exConfig exData "ep" "m1" exInput 0,
    (h.2 "binary_accuracy" "overall" [exER] (mkRat 6 10)).2.2.2.1 exER rfl⟩

/-- C9: for every (metric, slice) pair the card built by `create_metric`
has `history`, `timestamps` and `sample_sizes` of length equal to the
number of evaluations; the extracted value is `0.0` for any evaluation in
which the slice or the metric is absent; and a metric absent from every
evaluation yields latest value `0.0` and `passed = (0.0 >= threshold)`. -/
theorem c9_missing_values_default_zero (metric slice_ : String)
    (h : List EvaluationResult) (threshold : Rat) :
    (createMetric metric slice_ h threshold).history.length = h.length ∧
    (createMetric metric slice_ h threshold).timestamps.length = h.length ∧
    (createMetric metric slice_ h threshold).sample_sizes.length = h.length ∧
    (∀ er : EvaluationResult, lookupStr slice_ er.evaluation_result = none →
      sliceMetricValue metric slice_ er = 0) ∧
    (∀ er : EvaluationResult,
      lookupStr metric ((lookupStr slice_ er.evaluation_result).getD []) = none →
      sliceMetricValue metric slice_ er = 0) ∧
    ((∀ er ∈ h,
        lookupStr metric ((lookupStr slice_ er.evaluation_result).getD []) = none) →
      (createMetric metric slice_ h threshold).value = 0 ∧
      (createMetric metric slice_ h threshold).passed =
        decide ((0 : Rat) ≥ threshold)) := by
  refine ⟨by simp [createMetric], by simp [createMetric], by simp [createMetric],
    ?_, ?_, ?_⟩
  · intro er habsent
    simp [sliceMetricValue, habsent, lookupStr]
  · intro er habsent
    simp [sliceMetricValue, habsent]
  · intro hall
    have hv : (createMetric metric slice_ h threshold).value = 0 := by
      show (h.map (sliceMetricValue metric slice_)).getLast?.getD 0 = 0
      refine getLast?_getD_zero_of_all_zero _ ?_
      intro x hx
      obtain ⟨er, her, rfl⟩ := List.mem_map.mp hx
      simp [sliceMetricValue, hall er her]
    refine ⟨hv, ?_⟩
    show decide ((h.map (sliceMetricValue metric slice_)).getLast?.getD 0 ≥ threshold) = _
    rw [show (h.map (sliceMetricValue metric slice_)).getLast?.getD 0 =
      (createMetric metric slice_ h threshold).value from rfl, hv]

theorem c9_missing_values_default_zero_witness :
    (createMetric "binary_f1_score" "overall" [exER] (mkRat 6 10)).history.length = 1 ∧
    (createMetric "binary_f1_score" "overall" [exER] (mkRat 6 10)).value = 0 ∧
    (createMetric "binary_f1_score" "overall" [exER] (mkRat 6 10)).passed =
      decide ((0 : Rat) ≥ mkRat 6 10) := by
  have h := c9_missing_values_default_zero "binary_f1_score" "overall" [exER] (mkRat 6 10)
  have hall : ∀ er ∈ [exER],
      lookupStr "binary_f1_score"
        ((lookupStr "overall" er.evaluation_result).getD []) = none := by
    intro er her
    rw [List.mem_singleton] at her
    subst her
    rfl
  exact ⟨h.1, (h.2.2.2.2.2 hall).1, (h.2.2.2.2.2 hall).2⟩

theorem statusStringIff (a r : Bool) :
    ((if a && r then "No warnings" else "Warning") = ("No warnings" : String)) ↔
      (a = true ∧ r = true) := by
  cases a <;> cases r <;> decide

theorem get_model_safety_ok_spec (criteria : List EvaluationCriterion)
    (frequency : Option EvaluationFrequency) (collection : List PMetric)
    (now : Int) (ms : ModelSafety)
    (hok : get_model_safety criteria frequency collection now = .ok ms) :
    ∃ c0 rest thr, collection = c0 :: rest ∧
      c0.timestamps.getLast? = some ms.last_evaluated ∧
      frequencyThreshold (frequency.getD ⟨30, "days"⟩) = .ok thr ∧
      ms.metrics = safetyMetrics criteria collection ∧
      ms.is_recently_evaluated = decide (now - ms.last_evaluated ≤ thr) ∧
      ms.overall_status =
        (if (safetyMetrics criteria collection).all (fun m => m.status = "met") &&
            ms.is_recently_evaluated then "No warnings" else "Warning") := by
  cases collection with
  | nil => simp [get_model_safety] at hok
  | cons c0 rest =>
      cases e1 : c0.timestamps.getLast? with
      | none => simp [get_model_safety, e1] at hok
      | some le =>
          cases e2 : frequencyThreshold (frequency.getD ⟨30, "days"⟩) with
          | error s => simp [get_model_safety, e1, e2] at hok
          | ok thr =>
              simp only [get_model_safety, e1, e2] at hok
              obtain rfl :
                  ({ metrics := safetyMetrics criteria (c0 :: rest)
                     last_evaluated := le
                     is_recently_evaluated := decide (now - le ≤ thr)
                     overall_status :=
                       if (safetyMetrics criteria (c0 :: rest)).all
                           (fun m => m.status = "met") &&
                           decide (now - le ≤ thr) then "No warnings"
                       else "Warning" } : ModelSafety) = ms := by
                simpa using hok
              exact ⟨c0, rest, thr, rfl, e1, rfl, rfl, rfl, rfl⟩

/-- C4: the staleness duration is the literal duration for hours, days and
weeks, `30 * value` days for months, and `30` days when no frequency is set;
`is_recently_evaluated = (now - last_evaluated) <= duration`; and
`overall_status` is `"No warnings"` iff all criteria are met and the model
was recently evaluated — in particular a model last evaluated 40 days ago
under the default frequency gets `"Warning"` with all criteria met. -/
theorem c4_staleness_and_status :
    (∀ v : Int,
      frequencyThreshold ⟨v, "hours"⟩ = .ok (3600 * v) ∧
      frequencyThreshold ⟨v, "days"⟩ = .ok (86400 * v) ∧
      frequencyThreshold ⟨v, "weeks"⟩ = .ok (604800 * v) ∧
      frequencyThreshold ⟨v, "months"⟩ = .ok (86400 * (v * 30))) ∧
    (∀ (criteria : List EvaluationCriterion) (frequency : Option EvaluationFrequency)
        (collection : List PMetric) (now : Int) (ms : ModelSafety) (thr : Int),
      get_model_safety criteria frequency collection now = .ok ms →
      frequencyThreshold (frequency.getD ⟨30, "days"⟩) = .ok thr →
      ms.is_recently_evaluated = decide (now - ms.last_evaluated ≤ thr) ∧
      (ms.overall_status = "No warnings" ↔
        (ms.metrics.all (fun m => m.status = "met") = true ∧
          ms.is_recently_evaluated = true))) ∧
    frequencyThreshold ⟨30, "days"⟩ = .ok 2592000 ∧
    (get_model_safety [exCriterion] none [exCard] (40 * 86400) = .ok exSafety ∧
      exSafety.metrics.all (fun m => m.status = "met") = true ∧
      exSafety.is_recently_evaluated = false ∧
      exSafety.overall_status = "Warning") := by
  refine ⟨fun v => ⟨rfl, rfl, rfl, rfl⟩, ?_, rfl, ⟨rfl, rfl, rfl, rfl⟩⟩
  intro criteria frequency collection now ms thr hok hthr
  obtain ⟨c0, rest, thr', hcol, hlast, hthr', hmet, hrec, hstat⟩ :=
    get_model_safety_ok_spec criteria frequency collection now ms hok
  rw [hthr'] at hthr
  injection hthr with hthr_eq
  subst hthr_eq
  refine ⟨hrec, ?_⟩
  rw [hstat, hmet]
  exact statusStringIff _ _

theorem c4_staleness_and_status_witness :
    exSafety.is_recently_evaluated =
      decide ((40 * 86400 : Int) - exSafety.last_evaluated ≤ 2592000) ∧
    (exSafety.overall_status = "No warnings" ↔
      (exSafety.metrics.all (fun m => m.status = "met") = true ∧
        exSafety.is_recently_evaluated = true)) := by
  have h := c4_staleness_and_status
  exact h.2.1 [exCriterion] none [exCard] (40 * 86400) exSafety 2592000 rfl rfl

/-- C5: each criterion is matched against the cards by case-insensitive name
comparison (the first match is used) and silently skipped when no card
matches; a matched criterion's status is `"met"` exactly when the card's
latest value stands in the operator relation to the threshold (so `>=` with
threshold `0.8` and value `0.85` is met); and in a successful safety verdict
the overall status reflects the conjunction of the per-criterion results
(together with recency). -/
theorem c5_criteria_matching :
    (∀ (cr : EvaluationCriterion) (v : Rat),
      (cr.operator = .gt → (check_criterion cr v = true ↔ v > cr.threshold)) ∧
      (cr.operator = .lt → (check_criterion cr v = true ↔ v < cr.threshold)) ∧
      (cr.operator = .eq → (check_criterion cr v = true ↔ v = cr.threshold)) ∧
      (cr.operator = .ge → (check_criterion cr v = true ↔ v ≥ cr.threshold)) ∧
      (cr.operator = .le → (check_criterion cr v = true ↔ v ≤ cr.threshold))) ∧
    (∀ (cr : EvaluationCriterion) (collection : List PMetric),
      ((∀ m ∈ collection, ¬ pyLower m.name = pyLower cr.metric_name) →
        safetyMetrics [cr] collection = []) ∧
      (∀ md, collection.find? (fun m => pyLower m.name = pyLower cr.metric_name) =
          some md →
        md ∈ collection ∧ pyLower md.name = pyLower cr.metric_name ∧
        safetyMetrics [cr] collection =
          [{ name := cr.metric_name
             display_name := cr.display_name
             type := md.type
             slice := md.slice
             tooltip := md.tooltip
             value := md.value
             threshold := cr.threshold
             passed := decide
               ((if check_criterion cr md.value then "met" else "not met") = "met")
             history := md.history
             timestamps := md.timestamps
             sample_sizes := md.sample_sizes
             status := if check_criterion cr md.value then "met" else "not met" }])) ∧
    (∀ (cr : EvaluationCriterion) (criteria : List EvaluationCriterion)
        (collection : List PMetric),
      safetyMetrics (cr :: criteria) collection =
        safetyMetrics [cr] collection ++ safetyMetrics criteria collection) ∧
    (∀ (criteria : List EvaluationCriterion) (frequency : Option EvaluationFrequency)
        (collection : List PMetric) (now : Int) (ms : ModelSafety),
      get_model_safety criteria frequency collection now = .ok ms →
      ms.metrics = safetyMetrics criteria collection ∧
      (ms.overall_status = "No warnings" ↔
        ((∀ sm ∈ ms.metrics, sm.status = "met") ∧
          ms.is_recently_evaluated = true))) ∧
    check_criterion exCriterion08 (mkRat 85 100) = true := by
  refine ⟨?_, ?_, ?_, ?_, rfl⟩
  · intro cr v
    refine ⟨?_, ?_, ?_, ?_, ?_⟩ <;> intro hop <;> simp [check_criterion, hop]
  · intro cr collection
    constructor
    · intro hnone
      have hfind :
          collection.find? (fun m => pyLower m.name = pyLower cr.metric_name) =
            none := by
        rw [List.find?_eq_none]
        intro x hx
        simpa using hnone x hx
      simp [safetyMetrics, hfind]
    · intro md hfind
      refine ⟨List.mem_of_find?_eq_some hfind, by simpa using List.find?_some hfind, ?_⟩
      simp [safetyMetrics, hfind]
  · intro cr criteria collection
    cases e : collection.find? (fun m => pyLower m.name = pyLower cr.metric_name) <;>
      simp [safetyMetrics, e]
  · intro criteria frequency collection now ms hok
    obtain ⟨c0, rest, thr', hcol, hlast, hthr', hmet, hrec, hstat⟩ :=
      get_model_safety_ok_spec criteria frequency collection now ms hok
    refine ⟨hmet, ?_⟩
    rw [hstat, hmet, statusStringIff]
    simp [List.all_eq_true]

theorem c5_criteria_matching_witness :
    check_criterion exCriterion08 (mkRat 85 100) = true ∧
    (safetyMetrics [exCriterion] [exCard]).map (fun sm => sm.status) = ["met"] ∧
    safetyMetrics [exCriterionNoMatch] [exCard] = [] := by
  have h := c5_criteria_matching
  refine ⟨h.2.2.2.2, ?_, ?_⟩
  · rw [((h.2.1 exCriterion [exCard]).2 exCard rfl).2.2]
    rfl
  · refine (h.2.1 exCriterionNoMatch [exCard]).1 ?_
    intro m hm
    rw [List.mem_singleton] at hm
    subst hm
    decide
